import Mathlib

/-!
Shallow embedding of the forecasting engine of the repository
(frontend/src/lib/mockData.ts) and verification of the spec's claims
about it.

Modelling conventions:
* JavaScript numbers are modelled as real numbers (`ℝ`); `Math.round`
  is Mathlib's `round` (both are `⌊x + 1/2⌋`).
* Every call of the ambient generator `Math.random()` is uniquely
  located by the 0-based hour index `i`, the queue position `idx` in
  `workQueues`, and the call site (0 = utilization, 1 = breachProb,
  2 = bottleneckProb, 3 = workInProgress).  The ambient draws are made
  explicit as a parameter `rnd : ℕ → ℕ → ℕ → ℝ`; the source function
  itself has no randomness parameter.
* The ambient clock is made explicit: `cur` is `now.getHours()` and
  `nowMs` is `now.getTime()` in milliseconds; ISO timestamp strings are
  modelled by their underlying millisecond value (`ℤ`).
-/

/-- One work queue of the operational snapshot (mockData.ts, WorkQueue shape). -/
structure WorkQueue where
  id : String
  name : String
  workInProgress : ℝ
  capacity : ℝ
  avgProcessTime : ℝ
  employees : ℝ
  complexity : ℝ

/-- The operational snapshot (mockData.ts, OperationalState shape). -/
structure OperationalState where
  workQueues : List WorkQueue
  incomingRate : ℝ
  timestamp : ℤ
  slaThreshold : ℝ

/-- Per-queue per-hour prediction record built inside the forecast loop. -/
structure QueuePrediction where
  workInProgress : ℤ
  utilization : ℝ
  bottleneckProbability : ℝ
  slaBreachProbability : ℝ
  avgWaitTime : ℝ
  processed : ℤ

/-- One hour of the forecast (mockData.ts, forecast.push literal). -/
structure HourlyForecast where
  hour : ℕ
  timestamp : ℤ
  predictions : List (String × QueuePrediction)
  totalBreachRisk : ℝ

/-- The structured resource-change directive of a suggestion. -/
structure ResourceChange where
  queueId : String
  employeeChange : ℤ
  deriving DecidableEq

/-- One staffing suggestion (mockData.ts, suggestions literal). -/
structure Suggestion where
  severity : String
  queue : String
  queueId : String
  action : String
  impact : String
  resourceChange : Option ResourceChange
  reasoning : String
  deriving DecidableEq

/-- The response metadata block (mockData.ts, metadata literal). -/
structure SimulationMetadata where
  forecastHours : ℕ
  averageBreachRisk : ℝ
  peakRiskHour : ℕ
  peakRiskValue : ℝ
  resourceChangesApplied : ℕ
  suggestionsGenerated : ℕ
  simulationTimestamp : ℤ

/-- The complete simulation response returned by `generateMockForecast`. -/
structure SimulationResponse where
  forecast : List HourlyForecast
  suggestions : List Suggestion
  metadata : SimulationMetadata

/-- First queue of `mockOperationalState.workQueues` (mockData.ts lines 5-13). -/
def intakeQueue : WorkQueue :=
  { id := "intake", name := "Case Intake", workInProgress := 45,
    capacity := 50, avgProcessTime := 15, employees := 5, complexity := 1.0 }

/-- Second queue of `mockOperationalState.workQueues` (mockData.ts lines 14-22). -/
def reviewQueue : WorkQueue :=
  { id := "review", name := "Manual Review", workInProgress := 78,
    capacity := 60, avgProcessTime := 45, employees := 8, complexity := 2.5 }

/-- Third queue of `mockOperationalState.workQueues` (mockData.ts lines 23-31). -/
def approvalQueue : WorkQueue :=
  { id := "approval", name := "Final Approval", workInProgress := 23,
    capacity := 40, avgProcessTime := 30, employees := 4, complexity := 1.8 }

/-- Fourth queue of `mockOperationalState.workQueues` (mockData.ts lines 32-40). -/
def completionQueue : WorkQueue :=
  { id := "completion", name := "Case Completion", workInProgress := 12,
    capacity := 50, avgProcessTime := 10, employees := 3, complexity := 1.0 }

/-- The module-level constant queue list of `mockOperationalState`
(mockData.ts lines 3-45). -/
def mockWorkQueues : List WorkQueue :=
  [intakeQueue, reviewQueue, approvalQueue, completionQueue]

/-- `mockOperationalState` (mockData.ts lines 3-45); its capture timestamp
is the ambient module-load time, passed explicitly. -/
def mockOperationalState (ts : ℤ) : OperationalState :=
  { workQueues := mockWorkQueues, incomingRate := 8.5,
    timestamp := ts, slaThreshold := 120 }

/-- The demand-intensity factor computed at the top of the forecast loop:
`Math.sin((i + now.getHours()) * Math.PI / 12) * 0.3 + 1` (line 52),
where `i` is the 0-based loop counter and `cur = now.getHours()`. -/
noncomputable def hourFactor (i cur : ℕ) : ℝ :=
  Real.sin (((i : ℝ) + (cur : ℝ)) * Real.pi / 12) * 0.3 + 1

/-- The body of the `forEach` over queues (mockData.ts lines 55-68):
builds one `QueuePrediction` from a queue, the hour factor `f`, and the
four ambient `Math.random()` draws `r 0 .. r 3` of that body, in source
evaluation order. -/
noncomputable def queuePrediction (q : WorkQueue) (f : ℝ) (r : ℕ → ℝ) :
    QueuePrediction :=
  let baseUtil : ℝ := q.workInProgress / q.capacity * 100
  let utilization : ℝ := min 100 (baseUtil * f + r 0 * 10)
  let breachProb : ℝ := max 0 (min 100 ((utilization - 60) * 2 + r 1 * 15))
  let bottleneckProb : ℝ := max 0 (min 100 ((utilization - 50) * 1.5 + r 2 * 10))
  { workInProgress := round (q.workInProgress * f + r 3 * 10)
    utilization := utilization
    bottleneckProbability := bottleneckProb
    slaBreachProbability := breachProb
    avgWaitTime := q.avgProcessTime * (utilization / 50)
    processed := round (q.employees * (60 / q.avgProcessTime) * 0.85) }

/-- The `forEach((queue, idx) => ...)` accumulation of the predictions
record, in queue order, threading the queue position `idx` (used only to
address the ambient draws of that body). -/
noncomputable def predictionsFor (queues : List WorkQueue) (f : ℝ)
    (r : ℕ → ℕ → ℝ) (idx : ℕ) : List (String × QueuePrediction) :=
  match queues with
  | [] => []
  | q :: rest => (q.id, queuePrediction q f (r idx)) :: predictionsFor rest f r (idx + 1)

/-- One iteration of the forecast loop (mockData.ts lines 51-77): the
entry pushed for 0-based index `i`, with `totalBreachRisk` the reduce-sum
of the per-queue breach probabilities divided by the literal 4 (line 75). -/
noncomputable def hourlyEntry (queues : List WorkQueue) (i cur : ℕ)
    (nowMs : ℤ) (rnd : ℕ → ℕ → ℕ → ℝ) : HourlyForecast :=
  let preds := predictionsFor queues (hourFactor i cur) (rnd i) 0
  { hour := i + 1
    timestamp := nowMs + (i + 1 : ℤ) * 3600000
    predictions := preds
    totalBreachRisk := ((preds.map fun p => p.2.slaBreachProbability).sum) / 4 }

/-- The constant suggestion list of the returned response
(mockData.ts lines 81-109). -/
def fixedSuggestions : List Suggestion :=
  [ { severity := "high", queue := "Manual Review", queueId := "review",
      action := "Add 2 employee(s)", impact := "Reduce breach risk by ~42%",
      resourceChange := some { queueId := "review", employeeChange := 2 },
      reasoning := "Current workload (78 cases) exceeds safe capacity with high breach probability" },
    { severity := "medium", queue := "Final Approval", queueId := "approval",
      action := "Monitor closely and prepare to add resources",
      impact := "Prevent bottleneck formation",
      resourceChange := none,
      reasoning := "Early indicators of bottleneck formation detected" },
    { severity := "low", queue := "Case Completion", queueId := "completion",
      action := "Reallocate 1-2 employee(s)",
      impact := "Free resources without risk increase",
      resourceChange := some { queueId := "completion", employeeChange := -1 },
      reasoning := "Low utilization (24%) indicates spare capacity" } ]

/-- The body of `generateMockForecast` with the queue list it iterates
over made a parameter (the source closes over the module constant
`mockOperationalState.workQueues`; everything else is verbatim,
including the constant suggestions and metadata of lines 79-119). -/
noncomputable def genForecastWith (queues : List WorkQueue) (hours cur : ℕ)
    (nowMs : ℤ) (rnd : ℕ → ℕ → ℕ → ℝ) : SimulationResponse :=
  { forecast := (List.range hours).map fun i => hourlyEntry queues i cur nowMs rnd
    suggestions := fixedSuggestions
    metadata :=
      { forecastHours := hours
        averageBreachRisk := 32.5
        peakRiskHour := 4
        peakRiskValue := 58.2
        resourceChangesApplied := 0
        suggestionsGenerated := 3
        simulationTimestamp := nowMs } }

/-- `generateMockForecast` (mockData.ts lines 47-120): the simulation
entry point, always iterating the fixed `mockOperationalState.workQueues`. -/
noncomputable def generateMockForecast (hours cur : ℕ) (nowMs : ℤ)
    (rnd : ℕ → ℕ → ℕ → ℝ) : SimulationResponse :=
  genForecastWith mockWorkQueues hours cur nowMs rnd

/-- The all-zero ambient-draw stream (every `Math.random()` returns 0). -/
def rndZero : ℕ → ℕ → ℕ → ℝ := fun _ _ _ => 0

/-- The constant one-half ambient-draw stream (every `Math.random()`
returns 0.5, a value the real generator can produce). -/
noncomputable def rndHalf : ℕ → ℕ → ℕ → ℝ := fun _ _ _ => 1 / 2

/-- The demand-intensity factor exactly as §4.2 of the spec words it for
a 1-indexed hour offset `h`: `1 + 0.3 * sin(π * (h + currentHourOfDay) / 12)`.
Stated from the spec only, for comparison with the source's `hourFactor`. -/
noncomputable def specIntensityFactor (h cur : ℕ) : ℝ :=
  1 + 0.3 * Real.sin (Real.pi * ((h : ℝ) + (cur : ℝ)) / 12)

/-- Field characterization: projected work-in-progress of one prediction. -/
@[simp]
theorem queuePrediction_workInProgress (q : WorkQueue) (f : ℝ) (r : ℕ → ℝ) :
    (queuePrediction q f r).workInProgress =
      round (q.workInProgress * f + r 3 * 10) := rfl

/-- Field characterization: utilization of one prediction. -/
@[simp]
theorem queuePrediction_utilization (q : WorkQueue) (f : ℝ) (r : ℕ → ℝ) :
    (queuePrediction q f r).utilization =
      min 100 (q.workInProgress / q.capacity * 100 * f + r 0 * 10) := rfl

/-- Field characterization: SLA-breach probability of one prediction. -/
@[simp]
theorem queuePrediction_slaBreachProbability (q : WorkQueue) (f : ℝ) (r : ℕ → ℝ) :
    (queuePrediction q f r).slaBreachProbability =
      max 0 (min 100 (((queuePrediction q f r).utilization - 60) * 2 + r 1 * 15)) := rfl

/-- Field characterization: bottleneck probability of one prediction. -/
@[simp]
theorem queuePrediction_bottleneckProbability (q : WorkQueue) (f : ℝ) (r : ℕ → ℝ) :
    (queuePrediction q f r).bottleneckProbability =
      max 0 (min 100 (((queuePrediction q f r).utilization - 50) * 1.5 + r 2 * 10)) := rfl

/-- Field characterization: expected wait time of one prediction. -/
@[simp]
theorem queuePrediction_avgWaitTime (q : WorkQueue) (f : ℝ) (r : ℕ → ℝ) :
    (queuePrediction q f r).avgWaitTime =
      q.avgProcessTime * ((queuePrediction q f r).utilization / 50) := rfl

/-- Field characterization: hourly processed count of one prediction. -/
@[simp]
theorem queuePrediction_processed (q : WorkQueue) (f : ℝ) (r : ℕ → ℝ) :
    (queuePrediction q f r).processed =
      round (q.employees * (60 / q.avgProcessTime) * 0.85) := rfl

/-- Field characterization: hour index of one forecast entry. -/
@[simp]
theorem hourlyEntry_hour (queues : List WorkQueue) (i cur : ℕ) (t : ℤ)
    (rnd : ℕ → ℕ → ℕ → ℝ) : (hourlyEntry queues i cur t rnd).hour = i + 1 := rfl

/-- Field characterization: timestamp of one forecast entry. -/
@[simp]
theorem hourlyEntry_timestamp (queues : List WorkQueue) (i cur : ℕ) (t : ℤ)
    (rnd : ℕ → ℕ → ℕ → ℝ) :
    (hourlyEntry queues i cur t rnd).timestamp = t + (i + 1 : ℤ) * 3600000 := rfl

/-- Field characterization: predictions record of one forecast entry. -/
@[simp]
theorem hourlyEntry_predictions (queues : List WorkQueue) (i cur : ℕ) (t : ℤ)
    (rnd : ℕ → ℕ → ℕ → ℝ) :
    (hourlyEntry queues i cur t rnd).predictions =
      predictionsFor queues (hourFactor i cur) (rnd i) 0 := rfl

/-- Field characterization: aggregate risk of one forecast entry is the
reduce-sum of per-queue breach probabilities divided by the literal 4. -/
@[simp]
theorem hourlyEntry_totalBreachRisk (queues : List WorkQueue) (i cur : ℕ) (t : ℤ)
    (rnd : ℕ → ℕ → ℕ → ℝ) :
    (hourlyEntry queues i cur t rnd).totalBreachRisk =
      (((hourlyEntry queues i cur t rnd).predictions.map
        fun p => p.2.slaBreachProbability).sum) / 4 := rfl

/-- Field characterization: the forecast list of a response. -/
@[simp]
theorem genForecastWith_forecast (queues : List WorkQueue) (hours cur : ℕ)
    (t : ℤ) (rnd : ℕ → ℕ → ℕ → ℝ) :
    (genForecastWith queues hours cur t rnd).forecast =
      (List.range hours).map fun i => hourlyEntry queues i cur t rnd := rfl

/-- Field characterization: the suggestion list of a response. -/
@[simp]
theorem genForecastWith_suggestions (queues : List WorkQueue) (hours cur : ℕ)
    (t : ℤ) (rnd : ℕ → ℕ → ℕ → ℝ) :
    (genForecastWith queues hours cur t rnd).suggestions = fixedSuggestions := rfl

/-- Field characterization: the metadata block of a response. -/
@[simp]
theorem genForecastWith_metadata (queues : List WorkQueue) (hours cur : ℕ)
    (t : ℤ) (rnd : ℕ → ℕ → ℕ → ℝ) :
    (genForecastWith queues hours cur t rnd).metadata =
      { forecastHours := hours, averageBreachRisk := 32.5, peakRiskHour := 4,
        peakRiskValue := 58.2, resourceChangesApplied := 0,
        suggestionsGenerated := 3, simulationTimestamp := t } := rfl

/-- The entry point is the parameterized body at the fixed mock queues. -/
@[simp]
theorem generateMockForecast_eq (hours cur : ℕ) (t : ℤ) (rnd : ℕ → ℕ → ℕ → ℝ) :
    generateMockForecast hours cur t rnd =
      genForecastWith mockWorkQueues hours cur t rnd := rfl

/-- Unfolding of the prediction accumulation on a cons cell. -/
@[simp]
theorem predictionsFor_cons (q : WorkQueue) (rest : List WorkQueue) (f : ℝ)
    (r : ℕ → ℕ → ℝ) (idx : ℕ) :
    predictionsFor (q :: rest) f r idx =
      (q.id, queuePrediction q f (r idx)) :: predictionsFor rest f r (idx + 1) := rfl

/-- Unfolding of the prediction accumulation on the empty list. -/
@[simp]
theorem predictionsFor_nil (f : ℝ) (r : ℕ → ℕ → ℝ) (idx : ℕ) :
    predictionsFor [] f r idx = [] := rfl

/-- The hour factor at sine argument 0 is exactly 1. -/
theorem hourFactor_zero : hourFactor 0 0 = 1 := by
  unfold hourFactor
  norm_num [Real.sin_zero]

/-- The hour factor is bounded below by 0.7 (since `sin ≥ -1`). -/
theorem hourFactor_ge (i cur : ℕ) : 0.7 ≤ hourFactor i cur := by
  have h := Real.neg_one_le_sin (((i : ℝ) + (cur : ℝ)) * Real.pi / 12)
  unfold hourFactor
  nlinarith

/-- The hour factor is nonnegative. -/
theorem hourFactor_nonneg (i cur : ℕ) : 0 ≤ hourFactor i cur :=
  le_trans (by norm_num) (hourFactor_ge i cur)

/-- Bounds helper: under nonnegative work-in-progress, capacity, hour factor
and first draw, the three rate fields of a prediction lie in [0, 100]. -/
theorem qp_bounds (q : WorkQueue) (f : ℝ) (r : ℕ → ℝ)
    (hw : 0 ≤ q.workInProgress) (hc : 0 ≤ q.capacity) (hf : 0 ≤ f) (hr : 0 ≤ r 0) :
    0 ≤ (queuePrediction q f r).utilization ∧ (queuePrediction q f r).utilization ≤ 100 ∧
    0 ≤ (queuePrediction q f r).slaBreachProbability ∧
    (queuePrediction q f r).slaBreachProbability ≤ 100 ∧
    0 ≤ (queuePrediction q f r).bottleneckProbability ∧
    (queuePrediction q f r).bottleneckProbability ≤ 100 := by
  have hbase : 0 ≤ q.workInProgress / q.capacity * 100 * f + r 0 * 10 := by
    have h1 : 0 ≤ q.workInProgress / q.capacity * 100 * f :=
      mul_nonneg (mul_nonneg (div_nonneg hw hc) (by norm_num)) hf
    have h2 : 0 ≤ r 0 * 10 := mul_nonneg hr (by norm_num)
    linarith
  refine ⟨?_, ?_, ?_, ?_, ?_, ?_⟩
  · rw [queuePrediction_utilization]
    exact le_min (by norm_num) hbase
  · rw [queuePrediction_utilization]
    exact min_le_left _ _
  · rw [queuePrediction_slaBreachProbability]
    exact le_max_left _ _
  · rw [queuePrediction_slaBreachProbability]
    exact max_le (by norm_num) (min_le_left _ _)
  · rw [queuePrediction_bottleneckProbability]
    exact le_max_left _ _
  · rw [queuePrediction_bottleneckProbability]
    exact max_le (by norm_num) (min_le_left _ _)

/-- C1 (counterexample): the claim that two invocations with the same inputs
and seed return identical responses is false of the source: `generateMockForecast`
has no seed parameter, and its noise comes from the ambient global generator
`Math.random()`.  With the ambient draws made explicit, the same call
(`hours = 1`, clock fixed at hour 0 and time 0) returns different responses
under two draw streams the generator can produce (all 0 versus all 0.5): the
projected work-in-progress of the intake queue is 45 in one and 50 in the other. -/
theorem C1_ambient_noise_changes_response :
    generateMockForecast 1 0 0 rndZero ≠ generateMockForecast 1 0 0 rndHalf := by
  intro hEq
  have h2 := congrArg (fun R => (R.forecast.map fun e =>
    e.predictions.map fun p => p.2.workInProgress)) hEq
  simp only [generateMockForecast_eq, genForecastWith_forecast, List.range_succ,
    List.range_zero, List.nil_append, List.map_cons, List.map_nil,
    hourlyEntry_predictions, mockWorkQueues, predictionsFor_cons, predictionsFor_nil,
    queuePrediction_workInProgress, hourFactor_zero, List.cons.injEq, and_true] at h2
  norm_num [rndZero, rndHalf, intakeQueue, reviewQueue, approvalQueue,
    completionQueue, round_eq] at h2

/-- C1 (amended): the response is reproducible only relative to the ambient
sources: once the ambient `Math.random()` draw stream and the clock are fixed
(modelled as explicit arguments), two invocations with the same horizon, the
same clock, and pointwise-equal draw streams return identical responses. -/
theorem C1_deterministic_once_ambient_fixed (hours cur : ℕ) (t : ℤ)
    (r r2 : ℕ → ℕ → ℕ → ℝ) (hr : ∀ i j k, r i j k = r2 i j k) :
    generateMockForecast hours cur t r = generateMockForecast hours cur t r2 := by
  have : r = r2 := funext fun i => funext fun j => funext fun k => hr i j k
  rw [this]

/-- C1 witness: the reproducibility law applied at horizon 1, clock 0, and the
all-zero draw stream. -/
theorem C1_deterministic_once_ambient_fixed_witness :
    generateMockForecast 1 0 0 rndZero = generateMockForecast 1 0 0 rndZero :=
  C1_deterministic_once_ambient_fixed 1 0 0 rndZero rndZero fun _ _ _ => rfl

/-- C2 (counterexample): `metadata.peakRiskHour` is not the arg-max hour of
the per-hour aggregate risk.  At horizon 1 the only forecast hour is 1, so any
arg-max over the forecast's hours would be 1, yet the returned
`peakRiskHour` is the constant 4, which is not the hour of any entry. -/
theorem C2_peakRiskHour_not_a_forecast_hour :
    (generateMockForecast 1 0 0 rndZero).metadata.peakRiskHour ∉
      ((generateMockForecast 1 0 0 rndZero).forecast.map fun e => e.hour) := by
  simp [generateMockForecast, genForecastWith, hourlyEntry]

/-- C2 (amended): the peak-risk metadata is not computed from the forecast at
all: for every horizon, clock, and draw stream, `metadata.peakRiskHour` is the
constant 4 and `metadata.peakRiskValue` the constant 58.2. -/
theorem C2_peak_metadata_constant (hours cur : ℕ) (t : ℤ) (rnd : ℕ → ℕ → ℕ → ℝ) :
    (generateMockForecast hours cur t rnd).metadata.peakRiskHour = 4 ∧
    (generateMockForecast hours cur t rnd).metadata.peakRiskValue = 58.2 :=
  ⟨rfl, rfl⟩

/-- C3: the suggestion list and the risk metadata are constants independent of
every input: the response always carries exactly the three fixed suggestions
(high severity for queue review with employee change +2, medium for approval
with no resource change, low for completion with employee change -1, in that
order) and the constant metadata values 32.5 / 4 / 58.2 / 0 / 3, none derived
from the computed forecast. -/
theorem C3_suggestions_metadata_constant (hours cur : ℕ) (t : ℤ)
    (rnd : ℕ → ℕ → ℕ → ℝ) :
    (generateMockForecast hours cur t rnd).suggestions = fixedSuggestions ∧
    (fixedSuggestions.map fun s => s.severity) = ["high", "medium", "low"] ∧
    (fixedSuggestions.map fun s => s.queueId) = ["review", "approval", "completion"] ∧
    (fixedSuggestions.map fun s => s.resourceChange.map fun rc => rc.employeeChange) =
      [some 2, none, some (-1)] ∧
    (generateMockForecast hours cur t rnd).metadata.averageBreachRisk = 32.5 ∧
    (generateMockForecast hours cur t rnd).metadata.peakRiskHour = 4 ∧
    (generateMockForecast hours cur t rnd).metadata.peakRiskValue = 58.2 ∧
    (generateMockForecast hours cur t rnd).metadata.resourceChangesApplied = 0 ∧
    (generateMockForecast hours cur t rnd).metadata.suggestionsGenerated = 3 :=
  ⟨rfl, rfl, rfl, rfl, rfl, rfl, rfl, rfl, rfl⟩

/-- C4 (counterexample): no horizon validation exists.  Calling with horizon 0
or horizon 25 does not fail with InvalidHorizon (the source has no failure
path at all): both calls return an ordinary complete response, with an empty
forecast for 0 and a 25-entry forecast for 25, constant suggestions included. -/
theorem C4_no_horizon_validation_at_0_and_25 :
    (generateMockForecast 0 0 0 rndZero).forecast.length = 0 ∧
    (generateMockForecast 0 0 0 rndZero).metadata.forecastHours = 0 ∧
    (generateMockForecast 0 0 0 rndZero).suggestions = fixedSuggestions ∧
    (generateMockForecast 25 0 0 rndZero).forecast.length = 25 ∧
    (generateMockForecast 25 0 0 rndZero).metadata.forecastHours = 25 ∧
    (generateMockForecast 25 0 0 rndZero).suggestions = fixedSuggestions := by
  refine ⟨?_, rfl, rfl, ?_, rfl, rfl⟩ <;>
    simp [generateMockForecast, genForecastWith]

/-- C4 (amended): the simulation entry point validates nothing and never
fails: for every horizon (inside or outside [1, 24]) it returns a complete
response whose forecast has exactly that many entries and whose metadata
echoes the horizon. -/
theorem C4_every_horizon_returns_response (hours cur : ℕ) (t : ℤ)
    (rnd : ℕ → ℕ → ℕ → ℝ) :
    (generateMockForecast hours cur t rnd).forecast.length = hours ∧
    (generateMockForecast hours cur t rnd).metadata.forecastHours = hours := by
  constructor
  · simp [generateMockForecast, genForecastWith]
  · rfl

/-- C5 (counterexample): an empty queue collection does not make the engine
fail with EmptyQueueSet.  The entry point takes no queue collection (it always
iterates the fixed four mock queues); running its body on an empty queue list
completes normally: the reduce over no predictions yields 0, the division is
by the literal 4 (never by the queue count), the hour's aggregate risk is 0,
and the full constant suggestion list and metadata are still returned. -/
theorem C5_empty_queue_set_returns_response :
    ((genForecastWith [] 1 0 0 rndZero).forecast.map fun e => e.totalBreachRisk) = [0] ∧
    (genForecastWith [] 1 0 0 rndZero).suggestions = fixedSuggestions ∧
    (genForecastWith [] 1 0 0 rndZero).metadata.forecastHours = 1 := by
  refine ⟨?_, rfl, rfl⟩
  simp [genForecastWith, hourlyEntry, predictionsFor, List.range_succ]

/-- C5 (amended): there is no EmptyQueueSet failure mode and no division by
the queue count: on an empty queue list the body completes for every horizon,
producing a forecast whose per-hour aggregate risk is identically 0
(empty sum divided by the constant 4). -/
theorem C5_empty_queue_set_all_zero_risk (hours cur : ℕ) (t : ℤ)
    (rnd : ℕ → ℕ → ℕ → ℝ) :
    ((genForecastWith [] hours cur t rnd).forecast.map fun e => e.totalBreachRisk) =
      List.replicate hours 0 := by
  simp only [genForecastWith_forecast, List.map_map, Function.comp_def,
    hourlyEntry_totalBreachRisk, hourlyEntry_predictions, predictionsFor_nil,
    List.map_nil, List.sum_nil, zero_div]
  simp [List.map_const', List.length_range]

/-- C6: for every hour of the forecast, the entry's totalBreachRisk is the
arithmetic mean of that hour's per-queue SLA-breach probabilities: their sum
divided by the number of queues, with uniform weighting (the source divides by
the literal 4, and the queue set it iterates has exactly 4 queues). -/
theorem C6_totalBreachRisk_is_mean_over_queues (hours cur : ℕ) (t : ℤ)
    (rnd : ℕ → ℕ → ℕ → ℝ) :
    ∀ e ∈ (generateMockForecast hours cur t rnd).forecast,
      e.predictions.length = mockWorkQueues.length ∧
      e.totalBreachRisk =
        ((e.predictions.map fun p => p.2.slaBreachProbability).sum) /
          (mockWorkQueues.length : ℝ) := by
  intro e he
  simp only [generateMockForecast_eq, genForecastWith_forecast, List.mem_map,
    List.mem_range] at he
  obtain ⟨i, _, rfl⟩ := he
  constructor
  · simp [mockWorkQueues]
  · rw [hourlyEntry_totalBreachRisk]
    norm_num [mockWorkQueues]

/-- C6 witness: the mean law applied to the single entry of a horizon-1 run
with the all-zero draw stream and clock 0. -/
theorem C6_totalBreachRisk_is_mean_over_queues_witness :
    (hourlyEntry mockWorkQueues 0 0 0 rndZero).predictions.length =
      mockWorkQueues.length ∧
    (hourlyEntry mockWorkQueues 0 0 0 rndZero).totalBreachRisk =
      (((hourlyEntry mockWorkQueues 0 0 0 rndZero).predictions.map
        fun p => p.2.slaBreachProbability).sum) / (mockWorkQueues.length : ℝ) :=
  C6_totalBreachRisk_is_mean_over_queues 1 0 0 rndZero
    (hourlyEntry mockWorkQueues 0 0 0 rndZero)
    (by simp [generateMockForecast, genForecastWith])

/-- C7: clamping invariant.  When every ambient draw is nonnegative (as
`Math.random()` guarantees), every prediction of every returned forecast entry
has utilization in [0, 100], SLA-breach probability in [0, 100], and
bottleneck probability in [0, 100]; out-of-range intermediates are clamped
(`min`, `max`), never reported out of range and never an error. -/
theorem C7_prediction_bounds (hours cur : ℕ) (t : ℤ) (rnd : ℕ → ℕ → ℕ → ℝ)
    (hr : ∀ i j k, 0 ≤ rnd i j k) :
    ∀ e ∈ (generateMockForecast hours cur t rnd).forecast,
      ∀ p ∈ e.predictions,
        0 ≤ p.2.utilization ∧ p.2.utilization ≤ 100 ∧
        0 ≤ p.2.slaBreachProbability ∧ p.2.slaBreachProbability ≤ 100 ∧
        0 ≤ p.2.bottleneckProbability ∧ p.2.bottleneckProbability ≤ 100 := by
  intro e he p hp
  simp only [generateMockForecast_eq, genForecastWith_forecast, List.mem_map,
    List.mem_range] at he
  obtain ⟨i, _, rfl⟩ := he
  simp only [hourlyEntry_predictions, mockWorkQueues, predictionsFor_cons,
    predictionsFor_nil, List.mem_cons, List.not_mem_nil, or_false] at hp
  have hf := hourFactor_nonneg i cur
  rcases hp with rfl | rfl | rfl | rfl
  · exact qp_bounds intakeQueue (hourFactor i cur) (rnd i 0)
      (by norm_num [intakeQueue]) (by norm_num [intakeQueue]) hf (hr i 0 0)
  · exact qp_bounds reviewQueue (hourFactor i cur) (rnd i 1)
      (by norm_num [reviewQueue]) (by norm_num [reviewQueue]) hf (hr i 1 0)
  · exact qp_bounds approvalQueue (hourFactor i cur) (rnd i 2)
      (by norm_num [approvalQueue]) (by norm_num [approvalQueue]) hf (hr i 2 0)
  · exact qp_bounds completionQueue (hourFactor i cur) (rnd i 3)
      (by norm_num [completionQueue]) (by norm_num [completionQueue]) hf (hr i 3 0)

/-- C7 witness: the clamping invariant applied at horizon 1, clock 0, the
all-zero draw stream, and the intake-queue prediction of the first entry. -/
theorem C7_prediction_bounds_witness :
    0 ≤ (queuePrediction intakeQueue (hourFactor 0 0) (rndZero 0 0)).utilization ∧
    (queuePrediction intakeQueue (hourFactor 0 0) (rndZero 0 0)).utilization ≤ 100 ∧
    0 ≤ (queuePrediction intakeQueue (hourFactor 0 0) (rndZero 0 0)).slaBreachProbability ∧
    (queuePrediction intakeQueue (hourFactor 0 0) (rndZero 0 0)).slaBreachProbability ≤ 100 ∧
    0 ≤ (queuePrediction intakeQueue (hourFactor 0 0) (rndZero 0 0)).bottleneckProbability ∧
    (queuePrediction intakeQueue (hourFactor 0 0) (rndZero 0 0)).bottleneckProbability ≤ 100 :=
  C7_prediction_bounds 1 0 0 rndZero (fun _ _ _ => le_refl 0)
    (hourlyEntry mockWorkQueues 0 0 0 rndZero)
    (by simp [generateMockForecast, genForecastWith])
    ("intake", queuePrediction intakeQueue (hourFactor 0 0) (rndZero 0 0))
    (by simp [mockWorkQueues, intakeQueue])

/-- C8 (counterexample): the demand-intensity factor the source uses is not
`1 + 0.3 * sin(π * (h + currentHourOfDay) / 12)` for the 1-indexed hour `h`:
the source indexes the sine by the 0-based loop counter `i = h - 1`.  At
hour h = 1 with clock hour 0 the factor used is `hourFactor 0 0 = 1`
(sine of 0), while the claimed formula gives `1 + 0.3 * sin(π/12) ≠ 1`. -/
theorem C8_intensity_factor_off_by_one :
    hourFactor 0 0 = 1 ∧ specIntensityFactor 1 0 ≠ 1 := by
  refine ⟨hourFactor_zero, ?_⟩
  have h2 : 0 < Real.sin (Real.pi * 1 / 12) := by
    apply Real.sin_pos_of_pos_of_lt_pi
    · positivity
    · nlinarith [Real.pi_pos]
  unfold specIntensityFactor
  push_cast
  nlinarith

/-- C8 (amended): for the 1-indexed hour `h = i + 1` the factor used is
`1 + 0.3 * sin(π * ((h - 1) + currentHourOfDay) / 12)` (sine indexed by the
0-based offset `h - 1`), and the projected work-in-progress is
`round(q.workInProgress * factor + noise)` where the noise is `10 * u` for an
ambient draw `u ∈ [0, 1)`, hence nonnegative and strictly below 10. -/
theorem C8_intensity_factor_amended (i cur idx : ℕ) (q : WorkQueue)
    (rnd : ℕ → ℕ → ℕ → ℝ) (h0 : 0 ≤ rnd i idx 3) (h1 : rnd i idx 3 < 1) :
    hourFactor i cur =
      1 + 0.3 * Real.sin (Real.pi * ((((i : ℝ) + 1) - 1) + (cur : ℝ)) / 12) ∧
    (queuePrediction q (hourFactor i cur) (rnd i idx)).workInProgress =
      round (q.workInProgress * hourFactor i cur + rnd i idx 3 * 10) ∧
    0 ≤ rnd i idx 3 * 10 ∧ rnd i idx 3 * 10 < 10 := by
  refine ⟨?_, rfl, ?_, ?_⟩
  · unfold hourFactor
    have harg : Real.pi * ((((i : ℝ) + 1) - 1) + (cur : ℝ)) / 12 =
        ((i : ℝ) + (cur : ℝ)) * Real.pi / 12 := by ring
    rw [harg]
    ring
  · exact mul_nonneg h0 (by norm_num)
  · nlinarith

/-- C8 witness: the amended factor and projection law applied at hour 1
(offset 0), clock 0, the intake queue, and the all-zero draw stream. -/
theorem C8_intensity_factor_amended_witness :
    hourFactor 0 0 =
      1 + 0.3 * Real.sin (Real.pi * ((((0 : ℕ) : ℝ) + 1 - 1) + ((0 : ℕ) : ℝ)) / 12) ∧
    (queuePrediction intakeQueue (hourFactor 0 0) (rndZero 0 0)).workInProgress =
      round (intakeQueue.workInProgress * hourFactor 0 0 + rndZero 0 0 3 * 10) ∧
    0 ≤ rndZero 0 0 3 * 10 ∧ rndZero 0 0 3 * 10 < 10 :=
  C8_intensity_factor_amended 0 0 0 intakeQueue rndZero
    (le_refl 0) (by norm_num [rndZero])

/-- C9: forecast structure.  For every horizon in the valid range [1, 24]
(the property in fact needs no upper bound), the forecast has exactly
`horizon` entries, its hour fields are exactly 1..horizon in order (hence
strictly increasing), its timestamps are strictly increasing, and every
entry's timestamp is the simulation start time plus hour times 3600000
milliseconds, i.e. hour times 3600 seconds. -/
theorem C9_forecast_structure (hours cur : ℕ) (t : ℤ) (rnd : ℕ → ℕ → ℕ → ℝ)
    (hlo : 1 ≤ hours) (hhi : hours ≤ 24) :
    (generateMockForecast hours cur t rnd).forecast.length = hours ∧
    ((generateMockForecast hours cur t rnd).forecast.map fun e => e.hour) =
      List.range' 1 hours ∧
    List.Pairwise (fun a b => a < b)
      ((generateMockForecast hours cur t rnd).forecast.map fun e => e.timestamp) ∧
    ∀ e ∈ (generateMockForecast hours cur t rnd).forecast,
      e.timestamp = t + (e.hour : ℤ) * 3600000 := by
  refine ⟨?_, ?_, ?_, ?_⟩
  · simp [generateMockForecast, genForecastWith]
  · simp only [generateMockForecast_eq, genForecastWith_forecast, List.map_map]
    rw [List.range'_eq_map_range]
    simp [Function.comp_def, Nat.add_comm]
  · simp only [generateMockForecast_eq, genForecastWith_forecast, List.map_map]
    rw [List.pairwise_map]
    apply List.Pairwise.imp ?_ (List.pairwise_lt_range hours)
    intro a b hab
    simp only [Function.comp_def, hourlyEntry_timestamp]
    have hab2 : (a : ℤ) < (b : ℤ) := by exact_mod_cast hab
    nlinarith
  · intro e he
    simp only [generateMockForecast_eq, genForecastWith_forecast, List.mem_map,
      List.mem_range] at he
    obtain ⟨i, _, rfl⟩ := he
    simp only [hourlyEntry_timestamp, hourlyEntry_hour]
    push_cast
    ring

/-- C9 witness: the structure law applied at the scenario horizon 8, clock 0,
start time 0, and the all-zero draw stream. -/
theorem C9_forecast_structure_witness :
    (generateMockForecast 8 0 0 rndZero).forecast.length = 8 ∧
    ((generateMockForecast 8 0 0 rndZero).forecast.map fun e => e.hour) =
      List.range' 1 8 ∧
    List.Pairwise (fun a b => a < b)
      ((generateMockForecast 8 0 0 rndZero).forecast.map fun e => e.timestamp) ∧
    ∀ e ∈ (generateMockForecast 8 0 0 rndZero).forecast,
      e.timestamp = 0 + (e.hour : ℤ) * 3600000 :=
  C9_forecast_structure 8 0 0 rndZero (by norm_num) (by norm_num)

/-- C10: load-risk monotonicity.  Holding the queue's other fields, the hour,
the clock, and the ambient draws fixed, increasing the queue's workInProgress
never decreases the predicted SLA-breach probability at that hour (the source
chains work-in-progress through utilization into the breach formula with
nonnegative slopes; the positive-capacity hypothesis is the Queue Model
invariant `capacity > 0`). -/
theorem C10_breachProb_monotone_in_wip (q : WorkQueue) (w w2 : ℝ) (i cur : ℕ)
    (r : ℕ → ℝ) (hcap : 0 < q.capacity) (hw : w ≤ w2) :
    (queuePrediction { q with workInProgress := w } (hourFactor i cur) r).slaBreachProbability ≤
    (queuePrediction { q with workInProgress := w2 } (hourFactor i cur) r).slaBreachProbability := by
  simp only [queuePrediction_slaBreachProbability, queuePrediction_utilization]
  have hf := hourFactor_nonneg i cur
  gcongr

/-- C10 witness: monotonicity applied to the review queue at hour 1, clock 0,
the all-zero draw stream, raising workInProgress from 78 to 100. -/
theorem C10_breachProb_monotone_in_wip_witness :
    (queuePrediction { reviewQueue with workInProgress := 78 } (hourFactor 0 0)
      (rndZero 0 1)).slaBreachProbability ≤
    (queuePrediction { reviewQueue with workInProgress := 100 } (hourFactor 0 0)
      (rndZero 0 1)).slaBreachProbability :=
  C10_breachProb_monotone_in_wip reviewQueue 78 100 0 0 (rndZero 0 1)
    (by norm_num [reviewQueue]) (by norm_num)
